import Mathlib

/-
Shallow embedding of the patient-consultation core of the repository:
the consultation state machine and SQLite session store of
`src/agents/patient_consultation_agent.py` and the question-ranking and
patient-friendly-rendering helpers of `src/agents/tools.py`.

Modelling conventions, kept uniform below:
* Python strings are Lean `String`s, processed as `List Char` (one element
  per code point, as in Python).  Python's Unicode-aware character classes
  (`\w`, `\d`, `str.strip`, `str.lower`, `str.upper`) are modelled by their
  ASCII behaviour, which coincides with Python on every ASCII input.
* The three SQLite tables are in-memory lists of rows.  Autoincrement ids and
  wall-clock timestamp columns (`created_at`, `updated_at`,
  `response_timestamp`, `generated_at`) are abstracted away; where the code
  itself supplies a timestamp (`datetime.now()`), the model takes it as an
  opaque string argument `now`.  `ORDER BY response_timestamp` is list order,
  since rows are appended in timestamp order.
* JSON (de)serialisation of list-valued columns is abstracted: the column
  `symptoms_reported` holds the symptom list itself, and the summary columns
  hold their string lists.
-/

namespace Consult

/-- ASCII part of the whitespace set stripped by Python `str.strip()` and
matched by `\s`: space, tab, newline, carriage return, vertical tab and form
feed. -/
def pySpace (c : Char) : Bool :=
  c = ' ' || c = '\t' || c = '\n' || c = '\r' || c = '\x0b' || c = '\x0c'

/-- Python `str.strip()` on a character list. -/
def pyStripL (l : List Char) : List Char :=
  ((l.dropWhile pySpace).reverse.dropWhile pySpace).reverse

/-- Python `str.strip()`. -/
def pyStrip (s : String) : String := String.mk (pyStripL s.toList)

/-- Python `str.lower()` (ASCII). -/
def pyLower (s : String) : String := String.mk (s.toList.map Char.toLower)

/-- Python substring test `needle in haystack`. -/
def isSubstr (needle : List Char) : List Char → Bool
  | [] => needle.isEmpty
  | c :: rest => needle.isPrefixOf (c :: rest) || isSubstr needle rest

/-- Python `needle in hay` on strings. -/
def strContains (hay needle : String) : Bool := isSubstr needle.toList hay.toList

/-- Python `str.split(sep)` for a single-character separator: split at every
occurrence, keeping empty parts (`"a,,b".split(",") == ["a","","b"]`,
`"".split(",") == [""]`). -/
def splitOnChar (sep : Char) : List Char → List (List Char)
  | [] => [[]]
  | c :: rest =>
    if c = sep then [] :: splitOnChar sep rest
    else
      match splitOnChar sep rest with
      | [] => [[c]]
      | t :: ts => (c :: t) :: ts

/-- Python `str.split()` with no argument: split on whitespace runs, dropping
empty tokens. -/
def pySplitWs (l : List Char) : List (List Char) :=
  (l.foldr
    (fun c acc =>
      if pySpace c then [] :: acc
      else
        match acc with
        | [] => [[c]]
        | t :: ts => (c :: t) :: ts)
    []).filter (fun t => !t.isEmpty)

/-- Python `"\n".join` / `", ".join`. -/
def joinSep (sep : String) : List String → String
  | [] => ""
  | [x] => x
  | x :: rest => x ++ sep ++ joinSep sep rest

/-- Fuel-driven worker for `replaceSub`; the fuel starts at the length of the
subject and only decreases, so it never runs out. -/
def replaceSubFuel (pat rep : List Char) : Nat → List Char → List Char
  | 0, l => l
  | _ + 1, [] => []
  | fuel + 1, c :: rest =>
    if pat ≠ [] ∧ pat.isPrefixOf (c :: rest) then
      rep ++ replaceSubFuel pat rep fuel ((c :: rest).drop pat.length)
    else c :: replaceSubFuel pat rep fuel rest

/-- Python `str.replace(pat, rep)` for a nonempty `pat`: replace every
occurrence, scanning left to right, non-overlapping.  (For the empty pattern
this model is the identity; the code only ever replaces nonempty medical
terms.) -/
def replaceSub (pat rep l : List Char) : List Char := replaceSubFuel pat rep l.length l

/-- Rendering of an optional string held in `patient_data`: the dictionary key
is always present (set by `initialize_consultation`), so Python renders the
value itself, and `None` prints as `"None"` inside an f-string. -/
def pyShowOptStr : Option String → String
  | some s => s
  | none => "None"

/-- Python truthiness of `patient_data.get(key)` for an optional string:
`None` and `""` are falsy. -/
def truthyStr : Option String → Bool
  | some s => s != ""
  | none => false

/-- Characters of the regex class `[\w\.-]` (ASCII `\w`: letters, digits,
underscore). -/
def emailClassChar (c : Char) : Bool := c.isAlphanum || c = '_' || c = '.' || c = '-'

/-- Characters of `\w` (ASCII). -/
def wordChar (c : Char) : Bool := c.isAlphanum || c = '_'

/-- The `[\w\.-]+\.\w+$` part of the email pattern.  Because `\w` excludes the
dot, in any successful backtracking match the final `\w+` group is the run of
word characters after the last dot; so the domain matches iff the run of word
characters at its end is nonempty, is preceded by a literal dot, and the part
before that dot is a nonempty run of `[\w\.-]` characters. -/
def matchEmailDomain (dom : List Char) : Bool :=
  let revTld := dom.reverse.takeWhile wordChar
  match dom.reverse.drop revTld.length with
  | '.' :: revRest => !revTld.isEmpty && !revRest.isEmpty && revRest.all emailClassChar
  | _ => false

/-- `re.match(r'^[\w\.-]+@[\w\.-]+\.\w+$', email)` as a Boolean test.  No
character class of the pattern contains `@`, so a match forces exactly one `@`
splitting the string into a nonempty `[\w\.-]+` local part and a domain
matching `[\w\.-]+\.\w+`. -/
def matchEmail (s : String) : Bool :=
  match splitOnChar '@' s.toList with
  | [locPart, domPart] =>
    !locPart.isEmpty && locPart.all emailClassChar && matchEmailDomain domPart
  | _ => false

/-- The `ConsultationStage` enum. -/
inductive Stage
  | greeting
  | collecting_basic_info
  | collecting_symptoms
  | asking_followup_questions
  | summary
  | completed
deriving DecidableEq, Repr

/-- A row of the `patient_consultations` table (timestamp bookkeeping columns
and the autoincrement id abstracted; `summary_generated` is never written by
the modelled code and is omitted). -/
structure ConsultationRow where
  session_id : String
  user_id : Option String
  patient_name : Option String
  patient_email : Option String
  consultation_stage : Stage
  symptoms_reported : List String
  current_symptom_index : Nat
  current_question_index : Nat
  consultation_end_time : Option String
  completed : Bool
deriving DecidableEq, Repr

/-- A row of the `patient_responses` table (id and timestamp abstracted;
`follow_up_needed` always takes its default and is omitted). -/
structure ResponseRow where
  session_id : String
  question_id : String
  question_text : String
  question_category : String
  response_text : String
  symptom_name : Option String
deriving DecidableEq, Repr

/-- A row of the `consultation_summaries` table. -/
structure SummaryRow where
  session_id : String
  summary_text : String
  key_findings : List String
  red_flags : List String
  recommendations : List String
  next_steps : List String
deriving DecidableEq, Repr

/-- The three tables of `medical_consultations.db`. -/
structure DB where
  consultations : List ConsultationRow
  responses : List ResponseRow
  summaries : List SummaryRow
deriving DecidableEq, Repr

/-- The row inserted (and the equal dictionary returned) by the create branch
of `get_or_create_consultation`: stage `greeting`, empty symptom list, null
name/email, cursor columns at their SQL defaults `0`, `completed` at its
default `FALSE`. -/
def newConsultationRow (sid : String) (uid : Option String) : ConsultationRow :=
  { session_id := sid
    user_id := uid
    patient_name := none
    patient_email := none
    consultation_stage := .greeting
    symptoms_reported := []
    current_symptom_index := 0
    current_question_index := 0
    consultation_end_time := none
    completed := false }

/-- `MedicalDatabase.get_or_create_consultation`: `SELECT` the row with this
`session_id` and return it unchanged if present, otherwise `INSERT` a fresh
row and return its data. -/
def getOrCreateConsultation (db : DB) (sid : String) (uid : Option String) :
    ConsultationRow × DB :=
  match db.consultations.find? (fun r => r.session_id == sid) with
  | some r => (r, db)
  | none =>
    (newConsultationRow sid uid,
     { db with consultations := db.consultations ++ [newConsultationRow sid uid] })

/-- The keyword arguments accepted by `MedicalDatabase.update_consultation`:
exactly its allow-listed mutable columns, each `none` when the keyword is not
passed. -/
structure ConsultUpdate where
  patient_name : Option String := none
  patient_email : Option String := none
  consultation_stage : Option Stage := none
  symptoms_reported : Option (List String) := none
  current_symptom_index : Option Nat := none
  current_question_index : Option Nat := none
  completed : Option Bool := none
  consultation_end_time : Option String := none

/-- Apply one `update_consultation` call to a single row (the
`updated_at = CURRENT_TIMESTAMP` stamp is abstracted). -/
def applyUpdate (u : ConsultUpdate) (r : ConsultationRow) : ConsultationRow :=
  { r with
    patient_name := (match u.patient_name with | some v => some v | none => r.patient_name)
    patient_email := (match u.patient_email with | some v => some v | none => r.patient_email)
    consultation_stage := u.consultation_stage.getD r.consultation_stage
    symptoms_reported := u.symptoms_reported.getD r.symptoms_reported
    current_symptom_index := u.current_symptom_index.getD r.current_symptom_index
    current_question_index := u.current_question_index.getD r.current_question_index
    completed := u.completed.getD r.completed
    consultation_end_time :=
      (match u.consultation_end_time with | some v => some v | none => r.consultation_end_time) }

/-- `MedicalDatabase.update_consultation`:
`UPDATE patient_consultations SET ... WHERE session_id = ?`. -/
def updateConsultation (db : DB) (sid : String) (u : ConsultUpdate) : DB :=
  { db with
    consultations :=
      db.consultations.map (fun r => if r.session_id == sid then applyUpdate u r else r) }

/-- `MedicalDatabase.save_patient_response`: append-only `INSERT`. -/
def savePatientResponse (db : DB) (row : ResponseRow) : DB :=
  { db with responses := db.responses ++ [row] }

/-- `MedicalDatabase.save_consultation_summary`:
`INSERT OR REPLACE` keyed by the unique `session_id` (SQLite deletes the
conflicting row and inserts the new one). -/
def saveConsultationSummary (db : DB) (row : SummaryRow) : DB :=
  { db with
    summaries := db.summaries.filter (fun s => s.session_id != row.session_id) ++ [row] }

/-- `MedicalDatabase.get_consultation_responses`: all responses of the
session, `ORDER BY response_timestamp` (insertion order in the model). -/
def getConsultationResponses (db : DB) (sid : String) : List ResponseRow :=
  db.responses.filter (fun r => r.session_id == sid)

/-- The fields of `PatientConsultationState` used by the state machine; the
`patient_data` dictionary entries `name`, `email` and `symptoms` are inlined
as fields. -/
structure AgentState where
  consultation_stage : Stage
  name : Option String
  email : Option String
  symptoms : List String
  current_symptom_index : Nat
  current_question_index : Nat
  consultation_complete : Bool
  session_id : String
deriving DecidableEq, Repr

/-- `initialize_consultation`: load or create the session row and assemble the
in-memory state from it. -/
def initializeConsultation (db : DB) (sid : String) (uid : Option String) :
    AgentState × DB :=
  match getOrCreateConsultation db sid uid with
  | (row, db2) =>
    ({ consultation_stage := row.consultation_stage
       name := row.patient_name
       email := row.patient_email
       symptoms := row.symptoms_reported
       current_symptom_index := row.current_symptom_index
       current_question_index := row.current_question_index
       consultation_complete := row.completed
       session_id := sid }, db2)

/-- `symptoms = [s.strip() for s in user_input.split(",") if s.strip()]`,
falling back to `[user_input.strip()]` when the comprehension is empty. -/
def splitSymptoms (input : String) : List String :=
  let toks :=
    ((splitOnChar ',' input.toList).map (fun t => String.mk (pyStripL t))).filter
      (fun s => s != "")
  if toks.isEmpty then [pyStrip input] else toks

/-- The fixed five-question template of `ask_followup_questions` /
`store_response`. -/
def standardQuestions (sym : String) : List String :=
  [ "When did your " ++ sym ++ " first start?",
    "How would you describe your " ++ sym ++ " (mild, moderate, severe)?",
    "Does your " ++ sym ++ " get worse with activity or at rest?",
    "Have you taken any medication for your " ++ sym ++ "?",
    "Do you have any other symptoms that occur along with this one?" ]

/-- What one handler invocation returns: the AI message, the updated in-memory
state, and the store after the handler's writes. -/
structure StepOut where
  reply : String
  state : AgentState
  db : DB
deriving DecidableEq, Repr

def greetingReply : String :=
  "Hello! I\x27m PatientBot, your medical consultation assistant. I\x27ll help collect information about your symptoms for your healthcare provider.\n\nThis will take about 10-15 minutes. Let\x27s start with your full name."

/-- `collect_basic_info`: the greeting / basic-info / symptom-collection
handler.  `input` is the content of the last message when it is a
`HumanMessage`, and `""` otherwise. -/
def collectBasicInfo (st : AgentState) (input : String) (db : DB) : StepOut :=
  let sid := st.session_id
  match st.consultation_stage with
  | .greeting =>
    { reply := greetingReply
      state := { st with consultation_stage := .collecting_basic_info
                         consultation_complete := false }
      db := db }
  | .collecting_basic_info =>
    if !truthyStr st.name && pyStrip input != "" then
      let nm := pyStrip input
      { reply := "Thank you, " ++ nm ++ ". Now I need your email address for sending you the consultation summary."
        state := { st with name := some nm
                           consultation_stage := .collecting_basic_info
                           consultation_complete := false }
        db := updateConsultation db sid
                { patient_name := some nm
                  consultation_stage := some .collecting_basic_info } }
    else if !truthyStr st.email && pyStrip input != "" then
      let em := pyStrip input
      if matchEmail em then
        { reply := "Perfect! Now, " ++ pyShowOptStr st.name ++ ", please tell me what symptoms or health concerns brought you here today. Describe them in your own words."
          state := { st with email := some em
                             consultation_stage := .collecting_symptoms
                             consultation_complete := false }
          db := updateConsultation db sid
                  { patient_email := some em
                    consultation_stage := some .collecting_symptoms } }
      else
        { reply := "Please provide a valid email address (example: name@email.com)."
          state := { st with consultation_stage := .collecting_basic_info
                             consultation_complete := false }
          db := db }
    else
      { reply := "Please provide the requested information so we can continue."
        state := { st with consultation_stage := .collecting_basic_info
                           consultation_complete := false }
        db := db }
  | .collecting_symptoms =>
    if pyStrip input != "" && st.symptoms.isEmpty then
      let symptoms := splitSymptoms input
      { reply := "I understand you\x27re experiencing: " ++ joinSep ", " symptoms ++ ".\n\nNow I\x27ll ask you some specific questions about each symptom to help your healthcare provider better understand your condition."
        state := { st with symptoms := symptoms
                           consultation_stage := .asking_followup_questions
                           consultation_complete := false }
        db := updateConsultation db sid
                { symptoms_reported := some symptoms
                  consultation_stage := some .asking_followup_questions } }
    else
      { reply := "Please describe your symptoms or health concerns."
        state := { st with consultation_stage := .collecting_symptoms
                           consultation_complete := false }
        db := db }
  | _ =>
    { reply := "Let me gather more information about your symptoms."
      state := { st with consultation_stage := .asking_followup_questions
                         consultation_complete := false }
      db := db }

/-- The f-string assembled by `generate_consultation_summary` (the
`datetime.now().strftime(...)` date is the opaque `now`). -/
def buildSummaryText (st : AgentState) (responses : List ResponseRow) (now : String) :
    String :=
  pyStrip
    ("\n## Consultation Summary\n\n**Patient Information:**\n- Name: "
      ++ pyShowOptStr st.name
      ++ "\n- Email: " ++ pyShowOptStr st.email
      ++ "\n- Date: " ++ now
      ++ "\n\n**Reported Symptoms:**\n"
      ++ joinSep "\n" (st.symptoms.map (fun s => "• " ++ s))
      ++ "\n\n**Responses Collected:**\n"
      ++ joinSep "\n"
           (responses.map (fun r => "• " ++ r.question_text ++ ": " ++ r.response_text))
      ++ "\n\n---\n\n**Next Steps:**\n1. Schedule an appointment with your healthcare provider\n2. Bring this summary to your appointment\n3. If you have emergency symptoms, seek immediate medical attention\n\n**Important:** This consultation collected information only. Please consult healthcare professionals for proper diagnosis and treatment.\n\nThank you for your time, "
      ++ pyShowOptStr st.name ++ "! Your consultation is now complete.\n    ")

/-- `generate_consultation_summary`: read the session's responses, build the
report, upsert the summary row (with `red_flags` left at its `[]` default and
the fixed recommendation / next-step lists), mark the consultation completed
with an end time, and move to the `COMPLETED` stage. -/
def generateSummary (st : AgentState) (db : DB) (now : String) : StepOut :=
  let responses := getConsultationResponses db st.session_id
  let summaryText := buildSummaryText st responses now
  let keyFindings :=
    (responses.filter (fun r => strContains (pyLower r.response_text) "severe")).map
      (fun r => r.response_text)
  let db2 := saveConsultationSummary db
    { session_id := st.session_id
      summary_text := summaryText
      key_findings := keyFindings
      red_flags := []
      recommendations :=
        [ "Schedule appointment with healthcare provider",
          "Bring consultation summary to appointment",
          "Seek immediate care for emergency symptoms" ]
      next_steps :=
        [ "Contact primary care physician",
          "Review summary before appointment",
          "Monitor symptoms" ] }
  let db3 := updateConsultation db2 st.session_id
    { completed := some true
      consultation_end_time := some now
      consultation_stage := some .completed }
  { reply := summaryText
    state := { st with consultation_stage := .completed, consultation_complete := true }
    db := db3 }

/-- What `ask_followup_questions` produces: `asked = some (text, id)` when a
question was emitted (`id` is the `question_id` the handler computes for it),
`asked = none` when the handler fell through to summary generation. -/
structure AskOut where
  asked : Option (String × String)
  reply : String
  state : AgentState
  db : DB
deriving DecidableEq, Repr

/-- `ask_followup_questions`: go to summary generation when there are no
symptoms, when five questions have already been asked in the session, or when
a cursor is out of range; otherwise emit the template question at
`current_question_index` for the symptom at `current_symptom_index` and
persist the incremented question cursor. -/
def askFollowup (st : AgentState) (db : DB) (now : String) : AskOut :=
  if st.symptoms.isEmpty then
    let o := generateSummary st db now
    { asked := none, reply := o.reply, state := o.state, db := o.db }
  else if 5 ≤ st.current_question_index then
    let o := generateSummary st db now
    { asked := none, reply := o.reply, state := o.state, db := o.db }
  else if st.current_symptom_index < st.symptoms.length then
    let sym := st.symptoms.getD st.current_symptom_index ""
    let qs := standardQuestions sym
    if st.current_question_index < qs.length then
      let q := qs.getD st.current_question_index ""
      let qid := "q_" ++ toString st.current_symptom_index ++ "_"
                   ++ toString st.current_question_index
      { asked := some (q, qid)
        reply := q
        state := { st with consultation_stage := .asking_followup_questions
                           current_question_index := st.current_question_index + 1
                           consultation_complete := false }
        db := updateConsultation db st.session_id
                { current_question_index := some (st.current_question_index + 1) } }
    else
      let o := generateSummary st db now
      { asked := none, reply := o.reply, state := o.state, db := o.db }
  else
    let o := generateSummary st db now
    { asked := none, reply := o.reply, state := o.state, db := o.db }

/-- `store_response`, in the branch where the last message is a
`HumanMessage` with content `input`: reconstruct the most recently asked
question from the cursors — id `q_{symptom_idx}_{question_idx - 1}` and text
`standard_questions[(question_idx - 1) % 5]` (Python's `%` is nonnegative
here, hence `Int.emod`) — and append the response row.  The handler returns
the state unchanged. -/
def storeResponse (st : AgentState) (input : String) (db : DB) : DB :=
  if !st.symptoms.isEmpty && st.current_symptom_index < st.symptoms.length then
    let sym := st.symptoms.getD st.current_symptom_index ""
    let qid := "q_" ++ toString st.current_symptom_index ++ "_"
                 ++ toString ((st.current_question_index : Int) - 1)
    let qs := standardQuestions sym
    let qidx := (((st.current_question_index : Int) - 1) % (qs.length : Int)).toNat
    if qidx < qs.length then
      savePatientResponse db
        { session_id := st.session_id
          question_id := qid
          question_text := qs.getD qidx ""
          question_category := "symptom_details"
          response_text := input
          symptom_name := some sym }
    else db
  else db

/-- One user turn of the state machine, at the per-stage handler granularity
of the spec's turn contract, assembled from the graph's routing: a turn in
the greeting / basic-info / symptom stages runs `collect_basic_info`; a turn
in the follow-up stage records the user's message as the answer to the
previously asked question (`store_response`) and then runs
`ask_followup_questions`, which itself runs summary generation once the
question cap is reached.  The langgraph node re-entry loop and
message-isinstance dispatch are framework wiring around these handlers. -/
def turnStep (st : AgentState) (input : String) (db : DB) (now : String) :
    AgentState × DB :=
  match st.consultation_stage with
  | .greeting | .collecting_basic_info | .collecting_symptoms =>
    let o := collectBasicInfo st input db
    (o.state, o.db)
  | _ =>
    let db2 := storeResponse st input db
    let o := askFollowup st db2 now
    (o.state, o.db)

/-- The stage after each successive turn, starting from `st` and feeding the
given user messages one per turn. -/
def runStages (st : AgentState) (db : DB) (now : String) : List String → List Stage
  | [] => []
  | i :: rest =>
    (turnStep st i db now).1.consultation_stage ::
      runStages (turnStep st i db now).1 (turnStep st i db now).2 now rest

/-- A parsed question of `tools.py`: the dict
`{"text": ..., "category": ..., "priority": ...}`. -/
structure Question where
  text : String
  category : String
  priority : Nat
deriving DecidableEq, Repr

/-- The `priority_map` of `get_question_priority`, in its (insertion-ordered)
dict order. -/
def priorityMap : List (String × Nat) :=
  [ ("Red Flags Questions", 1),
    ("Vital Signs Questions", 2),
    ("Symptom Details Questions", 3),
    ("Medical History Questions", 4),
    ("Past Medical History Questions", 5),
    ("Lifestyle Risk Factors Questions", 6),
    ("Psychosocial Questions", 7) ]

/-- `get_question_priority`: walk `priority_map` in order and return the
priority of the first entry any of whose lowercased words occurs as a
substring of the lowercased category name; `8` when no entry matches. -/
def getQuestionPriority (category : String) : Nat :=
  let catL := (pyLower category).toList
  match priorityMap.find?
      (fun kv => (pySplitWs (pyLower kv.1).toList).any (fun w => isSubstr w catL)) with
  | some kv => kv.2
  | none => 8

/-- The category keywords of `parse_symptom_questions`. -/
def categoryKeywords : List String :=
  ["symptom details", "vital signs", "medical history", "red flags", "lifestyle",
   "psychosocial"]

/-- A (stripped) line opens a category when it ends with a colon and its
lowercase form contains one of the keywords. -/
def isCategoryHeader (l : List Char) : Bool :=
  l.getLast? == some ':'
    && categoryKeywords.any (fun k => isSubstr k.toList (l.map Char.toLower))

/-- Python `line.rstrip(':')`. -/
def rstripColon (l : List Char) : List Char :=
  (l.reverse.dropWhile (fun c => c == ':')).reverse

/-- The tuple of markers in `line.startswith(('1.','2.','3.','4.','5.','-','•'))`. -/
def questionMarkers : List (List Char) :=
  [['1', '.'], ['2', '.'], ['3', '.'], ['4', '.'], ['5', '.'], ['-'], ['•']]

/-- A (stripped) line inside an open category is accepted as a question when
it starts with one of the markers or ends with a question mark. -/
def isQuestionLine (l : List Char) : Bool :=
  questionMarkers.any (fun m => m.isPrefixOf l) || l.getLast? == some '?'

/-- `re.sub(r'^\d+\.\s*', '', line)` (ASCII `\d`, `\s`). -/
def stripDigitsDot (l : List Char) : List Char :=
  let ds := l.takeWhile Char.isDigit
  if ds.isEmpty then l
  else
    match l.drop ds.length with
    | '.' :: rest => rest.dropWhile pySpace
    | _ => l

/-- `re.sub(r'^[-•]\s*', '', question)`. -/
def stripDashBullet (l : List Char) : List Char :=
  match l with
  | c :: rest => if c == '-' || c == '•' then rest.dropWhile pySpace else l
  | [] => l

/-- The question-text cleanup of `parse_symptom_questions`. -/
def cleanQuestion (l : List Char) : List Char :=
  pyStripL (stripDashBullet (stripDigitsDot l))

/-- Python dict assignment `d[k] = v`: replace the value in place when the key
exists, append the binding otherwise. -/
def setKey (assoc : List (String × List Question)) (k : String) (v : List Question) :
    List (String × List Question) :=
  if assoc.any (fun p => p.1 == k) then
    assoc.map (fun p => if p.1 == k then (p.1, v) else p)
  else assoc ++ [(k, v)]

/-- `d[k].append(q)` for a key that is present (a no-op when absent; the
parser only appends under the currently open category, which it has always
inserted first). -/
def appendAt (assoc : List (String × List Question)) (k : String) (q : Question) :
    List (String × List Question) :=
  assoc.map (fun p => if p.1 == k then (p.1, p.2 ++ [q]) else p)

/-- The line loop of `parse_symptom_questions`: `cur` is `current_category`
and `assoc` the insertion-ordered `questions_by_category` dict. -/
def parseLines (cur : Option String) (assoc : List (String × List Question)) :
    List String → List (String × List Question)
  | [] => assoc
  | line :: rest =>
    let l := pyStripL line.toList
    if isCategoryHeader l then
      let c := String.mk (rstripColon l)
      parseLines (some c) (setKey assoc c []) rest
    else
      match cur with
      | some c =>
        if isQuestionLine l then
          let q := cleanQuestion l
          if String.mk q ≠ "" ∧ 10 < q.length then
            parseLines cur
              (appendAt assoc c
                { text := String.mk q, category := c, priority := getQuestionPriority c })
              rest
          else parseLines cur assoc rest
        else parseLines cur assoc rest
      | none => parseLines cur assoc rest

/-- Lexicographic code-point comparison of character lists: Python `str <`. -/
def ltChars : List Char → List Char → Bool
  | [], [] => false
  | [], _ :: _ => true
  | _ :: _, [] => false
  | a :: as, b :: bs =>
    if a.toNat < b.toNat then true
    else if b.toNat < a.toNat then false
    else ltChars as bs

/-- The strict order underlying the Python sort key
`(x.get("priority", 8), x.get("category", ""))` (both keys are always
present). -/
def qKeyLt (a b : Question) : Bool :=
  decide (a.priority < b.priority)
    || (a.priority == b.priority && ltChars a.category.toList b.category.toList)

/-- Stable insertion: place `x` after every element strictly below it and
before the first element not strictly below it, so that elements with equal
keys keep their original relative order. -/
def insertQ (x : Question) : List Question → List Question
  | [] => [x]
  | y :: ys => if qKeyLt y x then y :: insertQ x ys else x :: y :: ys

/-- A stable sort by `(priority, category)`.  Python's `list.sort` is also a
stable sort by this key, and two stable sorts of the same list with respect
to the same total preorder produce the same output, so this models
`all_questions.sort(key=lambda x: (x.get("priority", 8), x.get("category", "")))`
exactly. -/
def sortQ : List Question → List Question
  | [] => []
  | x :: xs => insertQ x (sortQ xs)

/-- `get_prioritized_questions`: flatten the per-category lists in dict order,
then sort by `(priority, category)`. -/
def getPrioritizedQuestions (assoc : List (String × List Question)) : List Question :=
  sortQ (assoc.foldl (fun acc p => acc ++ p.2) [])

/-- The structured result of `parse_symptom_questions`. -/
structure ParsedQuestions where
  symptom : String
  total_questions : Nat
  categories : List String
  questions_by_category : List (String × List Question)
  prioritized_questions : List Question
deriving DecidableEq, Repr

/-- `content.split('\n')`. -/
def splitNewlines (content : String) : List String :=
  (splitOnChar '\n' content.toList).map String.mk

/-- `parse_symptom_questions`. -/
def parseSymptomQuestions (content symptom : String) : ParsedQuestions :=
  let qbc := parseLines none [] (splitNewlines content)
  { symptom := symptom
    total_questions := (qbc.map (fun p => p.2.length)).sum
    categories := qbc.map (fun p => p.1)
    questions_by_category := qbc
    prioritized_questions := getPrioritizedQuestions qbc }

/-- The `replacements` dict of `make_patient_friendly`, in its insertion
order (the loop applies the substitutions in this order). -/
def replacementsTable : List (String × String) :=
  [ ("orthopnea", "difficulty breathing when lying down"),
    ("paroxysmal nocturnal dyspnea", "suddenly waking up gasping for air"),
    ("dyspnea", "shortness of breath"),
    ("palpitations", "heart racing or irregular heartbeat"),
    ("syncope", "fainting or losing consciousness"),
    ("diaphoresis", "sweating"),
    ("hemoptysis", "coughing up blood"),
    ("oliguria", "decreased urination"),
    ("nocturia", "frequent nighttime urination"),
    ("bradycardia", "slow heart rate"),
    ("tachycardia", "fast heart rate") ]

/-- The replacement loop of `make_patient_friendly`. -/
def applyReplacements (l : List Char) : List Char :=
  replacementsTable.foldl (fun s kv => replaceSub kv.1.toList kv.2.toList s) l

/-- `make_patient_friendly`: lowercase the whole question, run the
substitution loop, then (when the result is nonempty) uppercase its first
character; an empty result returns the original question unchanged. -/
def makePatientFriendly (question : String) : String :=
  match applyReplacements (question.toList.map Char.toLower) with
  | [] => question
  | c :: rest => String.mk (c.toUpper :: rest)

/-- Uppercase the first character of a string and keep the rest unchanged. -/
def capFirst (s : String) : String :=
  match s.toList with
  | [] => ""
  | c :: rest => String.mk (c.toUpper :: rest)

/-- The transformation as the specification words it: lowercase the entire
input, substitute each medical term of the fixed table, then uppercase only
the first character. -/
def patientFriendlySpec (q : String) : String :=
  capFirst (String.mk (applyReplacements (pyLower q).toList))

/-- The symptom split as the specification words it: split on commas, trim
each token, drop empties; if that yields nothing, the whole trimmed input is
the single symptom. -/
def splitSymptomsSpec (input : String) : List String :=
  let toks :=
    ((splitOnChar ',' input.toList).map (fun t => String.mk (pyStripL t))).filter
      (fun s => s != "")
  if toks = [] then [pyStrip input] else toks

/-- Iterate ask-and-answer rounds in the follow-up stage: each round runs
`ask_followup_questions`; when a question was asked the next user message is
recorded by `store_response` and the loop continues; when the handler went to
summary generation the loop stops.  Returns how many questions were asked and
the final state. -/
def askLoop (st : AgentState) (db : DB) (now : String) : List String → Nat × AgentState
  | [] => (0, st)
  | ans :: rest =>
    match (askFollowup st db now).asked with
    | some _ =>
      ((askLoop (askFollowup st db now).state
          (storeResponse (askFollowup st db now).state ans (askFollowup st db now).db)
          now rest).1 + 1,
       (askLoop (askFollowup st db now).state
          (storeResponse (askFollowup st db now).state ans (askFollowup st db now).db)
          now rest).2)
    | none => (0, (askFollowup st db now).state)

/-- A store with all three tables empty. -/
def emptyDB : DB := { consultations := [], responses := [], summaries := [] }

/-- A follow-up-stage state with the two symptoms of the spec's scenario and
both cursors at zero. -/
def twoSymptomState : AgentState :=
  { consultation_stage := .asking_followup_questions
    name := some "Jordan Lee"
    email := some "jordan@example.com"
    symptoms := ["chest pain", "shortness of breath"]
    current_symptom_index := 0
    current_question_index := 0
    consultation_complete := false
    session_id := "session-c2" }

/-- A store holding one consultation of the scenario session together with a
response containing "SEVERE" and one without. -/
def c8DB : DB :=
  { consultations := [newConsultationRow "session-c2" none]
    responses :=
      [{ session_id := "session-c2", question_id := "q_0_0",
         question_text := "When did your chest pain first start?",
         question_category := "symptom_details",
         response_text := "yesterday, SEVERE pressure", symptom_name := some "chest pain" },
       { session_id := "session-c2", question_id := "q_0_1",
         question_text := "How would you describe your chest pain (mild, moderate, severe)?",
         question_category := "symptom_details",
         response_text := "mild", symptom_name := some "chest pain" }]
    summaries := [] }

/-- A retrieval block containing both a red-flags category and a lifestyle
category, red flags first. -/
def c6Input : String :=
  "Red Flags Questions:\nDo you have severe crushing chest pain right now?\nLifestyle Questions:\nDo you currently smoke cigarettes every day?"

/-- The per-question invariant of `questions_by_category`: every stored
question names the category list holding it. -/
def CatInv (assoc : List (String × List Question)) : Prop :=
  ∀ p ∈ assoc, ∀ q ∈ p.2, q.category = p.1

/-- The non-strict order on questions corresponding to the Python sort key:
`a` may come before `b` iff `b` is not strictly below `a`. -/
def qKeyLe (a b : Question) : Prop := qKeyLt b a = false

end Consult

namespace Consult

theorem find?_append_none {α : Type} (p : α → Bool) (l1 l2 : List α)
    (h : l1.find? p = none) : (l1 ++ l2).find? p = l2.find? p := by
  induction l1 with
  | nil => rfl
  | cons a l ih =>
    cases hp : p a with
    | true => simp [List.find?_cons, hp] at h
    | false =>
      simp only [List.find?_cons, hp] at h
      simpa [List.find?_cons, hp] using ih h

/-- Claim C1: for every session id, `get_or_create_consultation` is
idempotent — given a store respecting the `UNIQUE(session_id)` constraint,
after the first call exactly one row exists for the session id, and a second
call returns exactly the row and store of the first call, inserting
nothing. -/
theorem getOrCreate_idempotent (db : DB) (sid : String) (uid uid2 : Option String)
    (h : (db.consultations.filter (fun r => r.session_id == sid)).length ≤ 1) :
    (((getOrCreateConsultation db sid uid).2.consultations.filter
        (fun r => r.session_id == sid)).length = 1)
    ∧ getOrCreateConsultation (getOrCreateConsultation db sid uid).2 sid uid2
        = ((getOrCreateConsultation db sid uid).1, (getOrCreateConsultation db sid uid).2) := by
  cases hf : db.consultations.find? (fun r => r.session_id == sid) with
  | some r =>
    have hmem : r ∈ db.consultations := List.mem_of_find?_eq_some hf
    have hr := List.find?_some hf
    have hfil : r ∈ db.consultations.filter (fun r => r.session_id == sid) :=
      List.mem_filter.mpr ⟨hmem, hr⟩
    have hpos : 0 < (db.consultations.filter (fun r => r.session_id == sid)).length :=
      List.length_pos.mpr (List.ne_nil_of_mem hfil)
    constructor
    · simp only [getOrCreateConsultation, hf]
      omega
    · simp only [getOrCreateConsultation, hf]
  | none =>
    have hnil : db.consultations.filter (fun r => r.session_id == sid) = [] := by
      rw [List.filter_eq_nil_iff]
      intro a ha
      have := List.find?_eq_none.mp hf a ha
      simpa using this
    constructor
    · simp only [getOrCreateConsultation, hf]
      rw [List.filter_append, hnil]
      simp [newConsultationRow]
    · simp only [getOrCreateConsultation, hf]
      rw [find?_append_none _ _ _ hf]
      simp [newConsultationRow]

/-- Witness for C1 at a fresh store and the session id `"session-1"`. -/
theorem c1_witness :
    (((getOrCreateConsultation emptyDB "session-1" (some "user-1")).2.consultations.filter
        (fun r => r.session_id == "session-1")).length = 1)
    ∧ getOrCreateConsultation (getOrCreateConsultation emptyDB "session-1" (some "user-1")).2
        "session-1" none
        = ((getOrCreateConsultation emptyDB "session-1" (some "user-1")).1,
           (getOrCreateConsultation emptyDB "session-1" (some "user-1")).2) :=
  getOrCreate_idempotent emptyDB "session-1" (some "user-1") none (by decide)

theorem truthyStr_none : truthyStr none = false := rfl

/-- Claim C2: in the follow-up stage, any state with no symptoms or with the
question cursor at five or more goes straight to summary generation — no
question is emitted and the cursor is not advanced; and in the two-symptom
scenario the ask-and-answer loop asks exactly five questions in total (not
ten) before reaching the completed stage. -/
theorem question_cap_global (st : AgentState) (db : DB) (now : String)
    (h : st.symptoms = [] ∨ 5 ≤ st.current_question_index) :
    ((askFollowup st db now).asked = none
      ∧ (askFollowup st db now).state.consultation_stage = .completed
      ∧ (askFollowup st db now).state.current_question_index = st.current_question_index)
    ∧ (askLoop twoSymptomState emptyDB "July 1, 2025"
        ["a1", "a2", "a3", "a4", "a5", "a6"]).1 = 5
    ∧ (askLoop twoSymptomState emptyDB "July 1, 2025"
        ["a1", "a2", "a3", "a4", "a5", "a6"]).2.consultation_stage = .completed := by
  refine ⟨?_, by decide, by decide⟩
  by_cases hs : st.symptoms.isEmpty
  · simp [askFollowup, hs, generateSummary]
  · have h5 : 5 ≤ st.current_question_index := by
      rcases h with h | h
      · exact absurd (by simp [h]) hs
      · exact h
    simp [askFollowup, hs, h5, generateSummary]

/-- Witness for C2 at a follow-up state with an empty symptom list. -/
theorem c2_witness :
    ((askFollowup ⟨.asking_followup_questions, none, none, [], 0, 0, false, "session-2w"⟩
        emptyDB "July 1, 2025").asked = none
      ∧ (askFollowup ⟨.asking_followup_questions, none, none, [], 0, 0, false, "session-2w"⟩
          emptyDB "July 1, 2025").state.consultation_stage = .completed
      ∧ (askFollowup ⟨.asking_followup_questions, none, none, [], 0, 0, false, "session-2w"⟩
          emptyDB "July 1, 2025").state.current_question_index = 0)
    ∧ (askLoop twoSymptomState emptyDB "July 1, 2025"
        ["a1", "a2", "a3", "a4", "a5", "a6"]).1 = 5
    ∧ (askLoop twoSymptomState emptyDB "July 1, 2025"
        ["a1", "a2", "a3", "a4", "a5", "a6"]).2.consultation_stage = .completed :=
  question_cap_global ⟨.asking_followup_questions, none, none, [], 0, 0, false, "session-2w"⟩
    emptyDB "July 1, 2025" (Or.inl rfl)

/-- Claim C3: in the basic-info stage with the name set and the email unset,
a nonempty input failing the email pattern leaves everything unchanged — the
handler re-prompts, the stage stays `COLLECTING_BASIC_INFO`, the email stays
null, and neither the in-memory state nor the store is mutated. -/
theorem invalid_email_keeps_state (st : AgentState) (input : String) (db : DB)
    (hstage : st.consultation_stage = .collecting_basic_info)
    (hname : truthyStr st.name = true)
    (hemail : st.email = none)
    (hinput : pyStrip input ≠ "")
    (hmatch : matchEmail (pyStrip input) = false) :
    collectBasicInfo st input db =
      { reply := "Please provide a valid email address (example: name@email.com)."
        state := { st with consultation_stage := .collecting_basic_info
                           consultation_complete := false }
        db := db }
    ∧ (collectBasicInfo st input db).state.email = none
    ∧ (collectBasicInfo st input db).db = db := by
  obtain ⟨s, n, e, sy, ci, qi, cc, sid⟩ := st
  simp only at hstage hname hemail
  subst hstage
  subst hemail
  have hb : (pyStrip input != "") = true := by simpa using hinput
  refine ⟨?_, ?_, ?_⟩ <;>
    simp [collectBasicInfo, hname, hb, hmatch, truthyStr_none]

/-- Witness for C3 at the input `"not-an-email"`. -/
theorem c3_witness :
    collectBasicInfo
      ⟨.collecting_basic_info, some "Alice Johnson", none, [], 0, 0, false, "session-3"⟩
      "not-an-email" emptyDB =
      { reply := "Please provide a valid email address (example: name@email.com)."
        state := ⟨.collecting_basic_info, some "Alice Johnson", none, [], 0, 0, false,
                  "session-3"⟩
        db := emptyDB }
    ∧ (collectBasicInfo
        ⟨.collecting_basic_info, some "Alice Johnson", none, [], 0, 0, false, "session-3"⟩
        "not-an-email" emptyDB).state.email = none
    ∧ (collectBasicInfo
        ⟨.collecting_basic_info, some "Alice Johnson", none, [], 0, 0, false, "session-3"⟩
        "not-an-email" emptyDB).db = emptyDB :=
  invalid_email_keeps_state _ "not-an-email" emptyDB rfl (by decide) rfl (by decide) (by decide)

/-- Claim C4: in the symptom-collection stage with no symptoms yet and a
nonempty input, the stored list is the comma-split, trimmed, empties-dropped
tokenisation (falling back to the whole trimmed input), it agrees with the
split the spec describes, the stage advances to the follow-up stage, and the
list is persisted; `"chest pain, dizziness"` gives the two-element list and
`"just tired"` the singleton. -/
theorem symptoms_split_stored (st : AgentState) (input : String) (db : DB)
    (hstage : st.consultation_stage = .collecting_symptoms)
    (hempty : st.symptoms = [])
    (hinput : pyStrip input ≠ "") :
    collectBasicInfo st input db =
      { reply := "I understand you\x27re experiencing: " ++ joinSep ", " (splitSymptoms input)
                   ++ ".\n\nNow I\x27ll ask you some specific questions about each symptom to help your healthcare provider better understand your condition."
        state := { st with symptoms := splitSymptoms input
                           consultation_stage := .asking_followup_questions
                           consultation_complete := false }
        db := updateConsultation db st.session_id
                { symptoms_reported := some (splitSymptoms input)
                  consultation_stage := some .asking_followup_questions } }
    ∧ splitSymptoms input = splitSymptomsSpec input
    ∧ splitSymptoms "chest pain, dizziness" = ["chest pain", "dizziness"]
    ∧ splitSymptoms "just tired" = ["just tired"] := by
  obtain ⟨s, n, e, sy, ci, qi, cc, sid⟩ := st
  simp only at hstage hempty
  subst hstage
  subst hempty
  have hb : (pyStrip input != "") = true := by simpa using hinput
  refine ⟨?_, ?_, by decide, by decide⟩
  · simp [collectBasicInfo, hb]
  · simp only [splitSymptoms, splitSymptomsSpec, List.isEmpty_iff]

/-- Witness for C4 at the input `"chest pain, dizziness"`. -/
theorem c4_witness :
    (collectBasicInfo
      ⟨.collecting_symptoms, some "Alice Johnson", some "alice@example.com", [], 0, 0, false,
       "session-4"⟩
      "chest pain, dizziness" emptyDB =
      { reply := "I understand you\x27re experiencing: "
                   ++ joinSep ", " (splitSymptoms "chest pain, dizziness")
                   ++ ".\n\nNow I\x27ll ask you some specific questions about each symptom to help your healthcare provider better understand your condition."
        state := ⟨.asking_followup_questions, some "Alice Johnson", some "alice@example.com",
                  splitSymptoms "chest pain, dizziness", 0, 0, false, "session-4"⟩
        db := updateConsultation emptyDB "session-4"
                { symptoms_reported := some (splitSymptoms "chest pain, dizziness")
                  consultation_stage := some .asking_followup_questions } })
    ∧ splitSymptoms "chest pain, dizziness" = splitSymptomsSpec "chest pain, dizziness"
    ∧ splitSymptoms "chest pain, dizziness" = ["chest pain", "dizziness"]
    ∧ splitSymptoms "just tired" = ["just tired"] :=
  symptoms_split_stored _ "chest pain, dizziness" emptyDB rfl rfl (by decide)

/-- Claim C5: when a follow-up question is asked and the next turn stores the
answer with the cursors unchanged in between, the persisted response row
carries exactly the question text and question id that the asking handler
computed — the template reconstruction with `(current_question_index - 1) mod 5`
and the id `q_{symptom_idx}_{question_idx}` stay synchronised. -/
theorem ask_store_question_sync (st : AgentState) (db : DB) (now answer : String)
    (hsym : st.symptoms ≠ [])
    (hcsi : st.current_symptom_index < st.symptoms.length)
    (hcqi : st.current_question_index < 5) :
    ∃ q qid,
      (askFollowup st db now).asked = some (q, qid)
      ∧ (storeResponse (askFollowup st db now).state answer (askFollowup st db now).db).responses
        = (askFollowup st db now).db.responses
            ++ [{ session_id := st.session_id, question_id := qid, question_text := q,
                  question_category := "symptom_details", response_text := answer,
                  symptom_name := some (st.symptoms.getD st.current_symptom_index "") }] := by
  obtain ⟨s, n, e, sy, ci, qi, cc, sid⟩ := st
  simp only at hsym hcsi hcqi ⊢
  have hne : sy.isEmpty = false := by simpa [List.isEmpty_iff] using hsym
  have h5 : ¬ (5 ≤ qi) := by omega
  have e2 : (((qi : Int)) % (5 : Int)).toNat = qi := by
    rw [Int.emod_eq_of_lt (by omega) (by exact_mod_cast hcqi)]
    simp
  have e4 : toString ((qi : Int)) = toString qi := rfl
  have e5 : (((qi + 1 : Nat) : Int) - 1) = (qi : Int) := by push_cast; ring
  refine ⟨(standardQuestions (sy.getD ci "")).getD qi "",
          "q_" ++ toString ci ++ "_" ++ toString qi, ?_, ?_⟩
  · simp [askFollowup, hne, h5, hcsi, standardQuestions, hcqi]
  · simp [askFollowup, hne, h5, hcsi, standardQuestions, hcqi, storeResponse,
          savePatientResponse, e5, e2, e4]

/-- Witness for C5 at the two-symptom scenario state. -/
theorem c5_witness :
    ∃ q qid,
      (askFollowup twoSymptomState emptyDB "July 1, 2025").asked = some (q, qid)
      ∧ (storeResponse (askFollowup twoSymptomState emptyDB "July 1, 2025").state
           "since yesterday"
           (askFollowup twoSymptomState emptyDB "July 1, 2025").db).responses
        = (askFollowup twoSymptomState emptyDB "July 1, 2025").db.responses
            ++ [{ session_id := twoSymptomState.session_id, question_id := qid,
                  question_text := q, question_category := "symptom_details",
                  response_text := "since yesterday",
                  symptom_name := some (twoSymptomState.symptoms.getD
                                          twoSymptomState.current_symptom_index "") }] :=
  ask_store_question_sync twoSymptomState emptyDB "July 1, 2025" "since yesterday"
    (by decide) (by decide) (by decide)

/-- Claim C8: summary generation stores a summary row whose `key_findings`
are exactly the response texts containing `"severe"` case-insensitively, in
store order, and marks every consultation row of the session completed, at
stage `COMPLETED`, with a non-null end time, without dropping any row. -/
theorem summary_findings_and_completion (st : AgentState) (db : DB) (now : String) :
    (((generateSummary st db now).db.summaries.filter
        (fun s => s.session_id == st.session_id)).map (fun s => s.key_findings)
      = [((getConsultationResponses db st.session_id).filter
            (fun r => strContains (pyLower r.response_text) "severe")).map
           (fun r => r.response_text)])
    ∧ (∀ c ∈ (generateSummary st db now).db.consultations,
         c.session_id = st.session_id →
           c.completed = true ∧ c.consultation_stage = .completed
             ∧ c.consultation_end_time = some now)
    ∧ (generateSummary st db now).db.consultations.length = db.consultations.length := by
  refine ⟨?_, ?_, ?_⟩
  · simp only [generateSummary, updateConsultation, saveConsultationSummary]
    rw [List.filter_append]
    have h1 : (db.summaries.filter (fun s => s.session_id != st.session_id)).filter
        (fun s => s.session_id == st.session_id) = [] := by
      rw [List.filter_filter, List.filter_eq_nil_iff]
      intro a _
      by_cases h : a.session_id = st.session_id <;> simp [h]
    rw [h1]
    simp
  · intro c hc hcs
    simp only [generateSummary, updateConsultation, saveConsultationSummary,
      List.mem_map] at hc
    obtain ⟨c0, hc0, rfl⟩ := hc
    by_cases h : (c0.session_id == st.session_id) = true
    · simp [h, applyUpdate]
    · rw [if_neg h] at hcs
      exact absurd (by simp [hcs]) h
  · simp [generateSummary, updateConsultation, saveConsultationSummary]

/-- Witness for C8 at a store holding one matching and one non-matching
response; the severe filter evaluates to the single matching text. -/
theorem c8_witness :
    (((generateSummary twoSymptomState c8DB "July 1, 2025").db.summaries.filter
        (fun s => s.session_id == twoSymptomState.session_id)).map (fun s => s.key_findings)
      = [((getConsultationResponses c8DB twoSymptomState.session_id).filter
            (fun r => strContains (pyLower r.response_text) "severe")).map
           (fun r => r.response_text)])
    ∧ ((getConsultationResponses c8DB twoSymptomState.session_id).filter
         (fun r => strContains (pyLower r.response_text) "severe")).map
        (fun r => r.response_text) = ["yesterday, SEVERE pressure"] := by
  constructor
  · exact (summary_findings_and_completion twoSymptomState c8DB "July 1, 2025").1
  · decide

end Consult

namespace Consult

theorem char_toNat_ofNat_valid (n : Nat) (h : n < 0xd800) : (Char.ofNat n).toNat = n := by
  rw [Char.ofNat, dif_pos (Or.inl h)]
  rfl

theorem toLower_eq (c : Char) :
    c.toLower = if c.toNat ≥ 65 ∧ c.toNat ≤ 90 then Char.ofNat (c.toNat + 32) else c := rfl

theorem toLower_toNat (c : Char) :
    (c.toLower).toNat = if c.toNat ≥ 65 ∧ c.toNat ≤ 90 then c.toNat + 32 else c.toNat := by
  rw [toLower_eq]
  by_cases h : c.toNat ≥ 65 ∧ c.toNat ≤ 90
  · rw [if_pos h, if_pos h, char_toNat_ofNat_valid _ (by omega)]
  · rw [if_neg h, if_neg h]

theorem toLower_idem (c : Char) : (c.toLower).toLower = c.toLower := by
  rw [toLower_eq c.toLower, toLower_toNat]
  by_cases h : c.toNat ≥ 65 ∧ c.toNat ≤ 90
  · rw [if_pos h, if_neg (by omega)]
  · rw [if_neg h, if_neg h]

theorem mem_replaceSubFuel (pat rep : List Char) (fuel : Nat) (l : List Char) (x : Char)
    (hx : x ∈ replaceSubFuel pat rep fuel l) : x ∈ l ∨ x ∈ rep := by
  induction fuel generalizing l with
  | zero => exact Or.inl hx
  | succ fuel ih =>
    cases l with
    | nil => exact Or.inl hx
    | cons c rest =>
      rw [replaceSubFuel] at hx
      by_cases h : pat ≠ [] ∧ pat.isPrefixOf (c :: rest)
      · rw [if_pos h] at hx
        rcases List.mem_append.mp hx with h1 | h1
        · exact Or.inr h1
        · rcases ih _ h1 with h2 | h2
          · exact Or.inl (List.mem_of_mem_drop h2)
          · exact Or.inr h2
      · rw [if_neg h] at hx
        rcases List.mem_cons.mp hx with h1 | h1
        · exact Or.inl (h1 ▸ List.mem_cons_self c rest)
        · rcases ih _ h1 with h2 | h2
          · exact Or.inl (List.mem_cons_of_mem _ h2)
          · exact Or.inr h2

theorem replaceSubFuel_eq_nil (pat rep : List Char) (fuel : Nat) (l : List Char)
    (h : replaceSubFuel pat rep fuel l = []) : l = [] ∨ rep = [] := by
  cases fuel with
  | zero => exact Or.inl h
  | succ fuel =>
    cases l with
    | nil => exact Or.inl rfl
    | cons c rest =>
      rw [replaceSubFuel] at h
      by_cases hp : pat ≠ [] ∧ pat.isPrefixOf (c :: rest)
      · rw [if_pos hp] at h
        exact Or.inr (List.append_eq_nil.mp h).1
      · rw [if_neg hp] at h
        exact absurd h (List.cons_ne_nil _ _)

theorem mem_foldl_replace (table : List (String × String)) (l : List Char) (x : Char)
    (hx : x ∈ table.foldl (fun s kv => replaceSub kv.1.toList kv.2.toList s) l) :
    x ∈ l ∨ ∃ kv ∈ table, x ∈ kv.2.toList := by
  induction table generalizing l with
  | nil => exact Or.inl hx
  | cons kv rest ih =>
    simp only [List.foldl_cons] at hx
    rcases ih _ hx with h1 | h1
    · rcases mem_replaceSubFuel _ _ _ _ _ h1 with h2 | h2
      · exact Or.inl h2
      · exact Or.inr ⟨kv, List.mem_cons_self _ _, h2⟩
    · obtain ⟨kv2, hm, hx2⟩ := h1
      exact Or.inr ⟨kv2, List.mem_cons_of_mem _ hm, hx2⟩

theorem foldl_replace_eq_nil (table : List (String × String)) (l : List Char)
    (hrep : ∀ kv ∈ table, kv.2.toList ≠ [])
    (h : table.foldl (fun s kv => replaceSub kv.1.toList kv.2.toList s) l = []) : l = [] := by
  induction table generalizing l with
  | nil => exact h
  | cons kv rest ih =>
    simp only [List.foldl_cons] at h
    have h2 := ih _ (fun p hp => hrep p (List.mem_cons_of_mem _ hp)) h
    rcases replaceSubFuel_eq_nil _ _ _ _ h2 with h3 | h3
    · exact h3
    · exact absurd h3 (hrep kv (List.mem_cons_self _ _))

theorem applyReplacements_eq_nil (l : List Char) (h : applyReplacements l = []) : l = [] :=
  foldl_replace_eq_nil _ _ (by decide) h

theorem mk_toList (l : List Char) : (String.mk l).toList = l := rfl

theorem makePatientFriendly_mk (l : List Char) :
    makePatientFriendly (String.mk l) =
      match applyReplacements (l.map Char.toLower) with
      | [] => String.mk l
      | c :: rest => String.mk (c.toUpper :: rest) := by
  simp only [makePatientFriendly, mk_toList]

theorem capFirst_mk (a : List Char) :
    capFirst (String.mk a) =
      match a with
      | [] => ""
      | c :: rest => String.mk (c.toUpper :: rest) := by
  simp only [capFirst, mk_toList]

theorem pyLower_mk (l : List Char) :
    pyLower (String.mk l) = String.mk (l.map Char.toLower) := by
  simp only [pyLower, mk_toList]

theorem patientFriendlySpec_mk (l : List Char) :
    patientFriendlySpec (String.mk l) =
      capFirst (String.mk (applyReplacements (l.map Char.toLower))) := by
  simp only [patientFriendlySpec, pyLower_mk, mk_toList]

/-- Claim C9: `make_patient_friendly` returns the entire input lowercased —
not just the matched terms — with every medical term of the fixed
substitution table replaced sequentially by its patient-friendly phrase, and
then only the first character uppercased, so the output equals the spec-side
recomposition, is insensitive to the input's capitalisation, and carries no
ASCII uppercase letter after its first character. -/
theorem patient_friendly_lowercases_whole_input (q : String) :
    makePatientFriendly q = patientFriendlySpec q
    ∧ makePatientFriendly (pyLower q) = makePatientFriendly q
    ∧ ∀ c ∈ (makePatientFriendly q).toList.drop 1, c.toNat < 65 ∨ 90 < c.toNat := by
  obtain ⟨l⟩ := q
  have hmapmap : (l.map Char.toLower).map Char.toLower = l.map Char.toLower := by
    rw [List.map_map]
    exact List.map_congr_left (fun x _ => toLower_idem x)
  refine ⟨?_, ?_, ?_⟩
  · rw [makePatientFriendly_mk, patientFriendlySpec_mk, capFirst_mk]
    cases happ : applyReplacements (l.map Char.toLower) with
    | nil =>
      have hnil : l = [] := List.map_eq_nil_iff.mp (applyReplacements_eq_nil _ happ)
      subst hnil
      rfl
    | cons c rest => rfl
  · rw [pyLower_mk, makePatientFriendly_mk, makePatientFriendly_mk, hmapmap]
    cases happ : applyReplacements (l.map Char.toLower) with
    | nil =>
      have hnil : l = [] := List.map_eq_nil_iff.mp (applyReplacements_eq_nil _ happ)
      subst hnil
      rfl
    | cons c rest => rfl
  · rw [makePatientFriendly_mk]
    cases happ : applyReplacements (l.map Char.toLower) with
    | nil =>
      have hnil : l = [] := List.map_eq_nil_iff.mp (applyReplacements_eq_nil _ happ)
      subst hnil
      simp
    | cons c0 rest =>
      intro c hc
      have hc2 : c ∈ applyReplacements (l.map Char.toLower) := by
        rw [happ]
        have hrest : (String.mk (c0.toUpper :: rest)).toList.drop 1 = rest := rfl
        rw [hrest] at hc
        exact List.mem_cons_of_mem _ hc
      rcases mem_foldl_replace _ _ _ hc2 with h1 | h1
      · obtain ⟨y, _, rfl⟩ := List.mem_map.mp h1
        have ht := toLower_toNat y
        by_cases hy : y.toNat ≥ 65 ∧ y.toNat ≤ 90
        · rw [if_pos hy] at ht
          omega
        · rw [if_neg hy] at ht
          omega
      · have hall : ∀ kv ∈ replacementsTable, ∀ x ∈ kv.2.toList,
            x.toNat < 65 ∨ 90 < x.toNat := by decide
        obtain ⟨kv, hkv, hx⟩ := h1
        exact hall kv hkv c hx

end Consult

namespace Consult

theorem ltChars_asymm (a : List Char) : ∀ b, ltChars a b = true → ltChars b a = false := by
  induction a with
  | nil =>
    intro b h
    cases b with
    | nil => simp [ltChars] at h
    | cons y ys => rfl
  | cons x xs ih =>
    intro b h
    cases b with
    | nil => simp [ltChars] at h
    | cons y ys =>
      rw [ltChars] at h ⊢
      by_cases h1 : x.toNat < y.toNat
      · rw [if_neg (by omega), if_pos h1]
      · rw [if_neg h1] at h
        by_cases h2 : y.toNat < x.toNat
        · rw [if_pos h2] at h
          exact absurd h (by simp)
        · rw [if_neg h2] at h
          rw [if_neg h2, if_neg h1]
          exact ih ys h

theorem ltChars_neg_trans (a : List Char) :
    ∀ b c, ltChars a b = false → ltChars b c = false → ltChars a c = false := by
  induction a with
  | nil =>
    intro b c hab hbc
    cases b with
    | nil =>
      cases c with
      | nil => rfl
      | cons z zs => simp [ltChars] at hbc
    | cons y ys => simp [ltChars] at hab
  | cons x xs ih =>
    intro b c hab hbc
    cases b with
    | nil =>
      cases c with
      | nil => rfl
      | cons z zs => simp [ltChars] at hbc
    | cons y ys =>
      cases c with
      | nil => rfl
      | cons z zs =>
        rw [ltChars] at hab hbc ⊢
        by_cases hxy : x.toNat < y.toNat
        · rw [if_pos hxy] at hab
          exact absurd hab (by simp)
        · rw [if_neg hxy] at hab
          by_cases hyz : y.toNat < z.toNat
          · rw [if_pos hyz] at hbc
            exact absurd hbc (by simp)
          · rw [if_neg hyz] at hbc
            by_cases hyx : y.toNat < x.toNat
            · rw [if_neg (by omega), if_pos (by omega)]
            · rw [if_neg hyx] at hab
              by_cases hzy : z.toNat < y.toNat
              · rw [if_neg (by omega), if_pos (by omega)]
              · rw [if_neg hzy] at hbc
                rw [if_neg (by omega), if_neg (by omega)]
                exact ih ys zs hab hbc

theorem qKeyLt_asymm (a b : Question) (h : qKeyLt a b = true) : qKeyLe a b := by
  rw [qKeyLe, qKeyLt]
  rw [qKeyLt] at h
  by_cases hp : a.priority < b.priority
  · have h1 : decide (b.priority < a.priority) = false := by
      simp only [decide_eq_false_iff_not]
      omega
    have h2 : (b.priority == a.priority) = false := by
      simp only [beq_eq_false_iff_ne, ne_eq]
      omega
    rw [h1, h2]
    rfl
  · have h1 : decide (a.priority < b.priority) = false := by simpa using hp
    rw [h1] at h
    simp only [Bool.false_or, Bool.and_eq_true, beq_iff_eq] at h
    obtain ⟨heq, hlt⟩ := h
    have h2 : decide (b.priority < a.priority) = false := by
      simp only [decide_eq_false_iff_not]
      omega
    have h3 : (b.priority == a.priority) = true := by simp [heq]
    rw [h2, h3]
    simp only [Bool.false_or, Bool.true_and]
    exact ltChars_asymm _ _ hlt

theorem qKeyLt_neg_le (a b : Question) (h : qKeyLt b a = false) : qKeyLe a b := h

theorem qKeyLe_trans (a b c : Question) (h1 : qKeyLe a b) (h2 : qKeyLe b c) : qKeyLe a c := by
  rw [qKeyLe, qKeyLt] at h1 h2 ⊢
  have hp1 : ¬ b.priority < a.priority := by
    intro hcon
    rw [decide_eq_true hcon] at h1
    simp at h1
  have hp2 : ¬ c.priority < b.priority := by
    intro hcon
    rw [decide_eq_true hcon] at h2
    simp at h2
  have hg1 : decide (c.priority < a.priority) = false := by
    simp only [decide_eq_false_iff_not]
    omega
  rw [hg1]
  simp only [Bool.false_or]
  by_cases hac : c.priority = a.priority
  · have hba : b.priority = a.priority := by omega
    have hcb : c.priority = b.priority := by omega
    rw [show (b.priority == a.priority) = true by simp [hba]] at h1
    rw [show (c.priority == b.priority) = true by simp [hcb]] at h2
    simp only [Bool.true_and, Bool.or_eq_false_iff] at h1 h2
    rw [show (c.priority == a.priority) = true by simp [hac]]
    simp only [Bool.true_and]
    exact ltChars_neg_trans _ _ _ h2.2 h1.2
  · rw [show (c.priority == a.priority) = false by simp [hac]]
    rfl

theorem mem_insertQ (x z : Question) (l : List Question) (hz : z ∈ insertQ x l) :
    z = x ∨ z ∈ l := by
  induction l with
  | nil => simpa [insertQ] using hz
  | cons y ys ih =>
    rw [insertQ] at hz
    by_cases h : qKeyLt y x = true
    · rw [if_pos h] at hz
      rcases List.mem_cons.mp hz with h1 | h1
      · exact Or.inr (h1 ▸ List.mem_cons_self _ _)
      · rcases ih h1 with h2 | h2
        · exact Or.inl h2
        · exact Or.inr (List.mem_cons_of_mem _ h2)
    · rw [if_neg h] at hz
      rcases List.mem_cons.mp hz with h1 | h1
      · exact Or.inl h1
      · exact Or.inr h1

theorem pairwise_insertQ (x : Question) (l : List Question) (h : l.Pairwise qKeyLe) :
    (insertQ x l).Pairwise qKeyLe := by
  induction l with
  | nil => simp [insertQ]
  | cons y ys ih =>
    rcases List.pairwise_cons.mp h with ⟨hy, hys⟩
    rw [insertQ]
    by_cases hlt : qKeyLt y x = true
    · rw [if_pos hlt]
      refine List.pairwise_cons.mpr ⟨?_, ih hys⟩
      intro z hz
      rcases mem_insertQ x z ys hz with h1 | h1
      · exact h1 ▸ qKeyLt_asymm y x hlt
      · exact hy z h1
    · rw [if_neg hlt]
      refine List.pairwise_cons.mpr ⟨?_, h⟩
      intro z hz
      have hxy : qKeyLe x y := qKeyLt_neg_le x y (Bool.not_eq_true _ ▸ eq_false_of_ne_true hlt)
      rcases List.mem_cons.mp hz with h1 | h1
      · exact h1 ▸ hxy
      · exact qKeyLe_trans x y z hxy (hy z h1)

theorem sortQ_pairwise (l : List Question) : (sortQ l).Pairwise qKeyLe := by
  induction l with
  | nil => simp [sortQ]
  | cons x xs ih => exact pairwise_insertQ x (sortQ xs) ih

theorem insertQ_perm (x : Question) (l : List Question) : (insertQ x l).Perm (x :: l) := by
  induction l with
  | nil => rfl
  | cons y ys ih =>
    rw [insertQ]
    by_cases h : qKeyLt y x = true
    · rw [if_pos h]
      exact (ih.cons y).trans (List.Perm.swap x y ys)
    · rw [if_neg h]

theorem sortQ_perm (l : List Question) : (sortQ l).Perm l := by
  induction l with
  | nil => rfl
  | cons x xs ih => exact (insertQ_perm x (sortQ xs)).trans (ih.cons x)

end Consult

namespace Consult

theorem catInv_setKey (assoc : List (String × List Question)) (c : String)
    (h : CatInv assoc) : CatInv (setKey assoc c []) := by
  rw [setKey]
  by_cases hc : assoc.any (fun p => p.1 == c) = true
  · rw [if_pos hc]
    intro p hp q hq
    rcases List.mem_map.mp hp with ⟨p0, hp0, rfl⟩
    by_cases he : (p0.1 == c) = true
    · rw [if_pos he] at hq ⊢
      simp at hq
    · rw [if_neg he] at hq ⊢
      exact h p0 hp0 q hq
  · rw [if_neg hc]
    intro p hp q hq
    rcases List.mem_append.mp hp with h1 | h1
    · exact h p h1 q hq
    · rcases List.mem_singleton.mp h1 with rfl
      simp at hq

theorem catInv_appendAt (assoc : List (String × List Question)) (c : String) (q : Question)
    (h : CatInv assoc) (hq : q.category = c) : CatInv (appendAt assoc c q) := by
  rw [appendAt]
  intro p hp q2 hq2
  rcases List.mem_map.mp hp with ⟨p0, hp0, rfl⟩
  by_cases he : (p0.1 == c) = true
  · rw [if_pos he] at hq2 ⊢
    rcases List.mem_append.mp hq2 with h1 | h1
    · exact h p0 hp0 q2 h1
    · rcases List.mem_singleton.mp h1 with rfl
      rw [hq]
      exact (beq_iff_eq.mp he).symm
  · rw [if_neg he] at hq2 ⊢
    exact h p0 hp0 q2 hq2

theorem catInv_parseLines (lines : List String) :
    ∀ (cur : Option String) (assoc : List (String × List Question)),
      CatInv assoc → CatInv (parseLines cur assoc lines) := by
  induction lines with
  | nil =>
    intro cur assoc h
    exact h
  | cons line rest ih =>
    intro cur assoc h
    cases cur with
    | none =>
      simp only [parseLines]
      by_cases hh : isCategoryHeader (pyStripL line.toList) = true
      · rw [if_pos hh]
        exact ih _ _ (catInv_setKey _ _ h)
      · rw [if_neg hh]
        exact ih _ _ h
    | some c =>
      simp only [parseLines]
      by_cases hh : isCategoryHeader (pyStripL line.toList) = true
      · rw [if_pos hh]
        exact ih _ _ (catInv_setKey _ _ h)
      · rw [if_neg hh]
        by_cases hq : isQuestionLine (pyStripL line.toList) = true
        · rw [if_pos hq]
          by_cases hlen : String.mk (cleanQuestion (pyStripL line.toList)) ≠ ""
              ∧ 10 < (cleanQuestion (pyStripL line.toList)).length
          · rw [if_pos hlen]
            exact ih _ _ (catInv_appendAt _ _ _ h rfl)
          · rw [if_neg hlen]
            exact ih _ _ h
        · rw [if_neg hq]
          exact ih _ _ h

theorem foldl_append_eq_flatten (assoc : List (String × List Question))
    (acc : List Question) :
    assoc.foldl (fun acc p => acc ++ p.2) acc = acc ++ (assoc.map Prod.snd).flatten := by
  induction assoc generalizing acc with
  | nil => simp
  | cons p rest ih => simp [ih, List.append_assoc]

/-- Claim C10: for every parse result, `total_questions` equals the sum of
the per-category list lengths and the length of `prioritized_questions`;
`prioritized_questions` is a permutation of the per-category lists' union;
and every question's `category` field names the category list holding it. -/
theorem parse_symptom_questions_invariants (content symptom : String) :
    (parseSymptomQuestions content symptom).total_questions
      = ((parseSymptomQuestions content symptom).questions_by_category.map
           (fun p => p.2.length)).sum
    ∧ (parseSymptomQuestions content symptom).total_questions
      = (parseSymptomQuestions content symptom).prioritized_questions.length
    ∧ List.Perm (parseSymptomQuestions content symptom).prioritized_questions
        (((parseSymptomQuestions content symptom).questions_by_category.map
            Prod.snd).flatten)
    ∧ ∀ p ∈ (parseSymptomQuestions content symptom).questions_by_category,
        ∀ q ∈ p.2, q.category = p.1 := by
  refine ⟨rfl, ?_, ?_, ?_⟩
  · simp only [parseSymptomQuestions, getPrioritizedQuestions]
    rw [(sortQ_perm _).length_eq, foldl_append_eq_flatten]
    simp only [List.nil_append, List.length_flatten, List.map_map]
    rfl
  · simp only [parseSymptomQuestions, getPrioritizedQuestions]
    rw [foldl_append_eq_flatten]
    simpa using sortQ_perm _
  · simp only [parseSymptomQuestions]
    exact catInv_parseLines _ none [] (by intro p hp; simp at hp)

/-- Claim C6 counterexample: on an input containing a "Red Flags Questions:"
category followed by a "Lifestyle Questions:" category, the code assigns
priority 1 to both categories (the word "questions" of the first table entry
substring-matches any category containing it, so "Lifestyle Questions" gets 1
rather than the table's 6), and the category-name tie-break puts the
lifestyle question before the red-flag question — so it is false that every
red-flag question precedes every lifestyle question. -/
theorem red_flags_before_lifestyle_false :
    (¬ ∀ i j : Fin (parseSymptomQuestions c6Input "chest pain").prioritized_questions.length,
        ((parseSymptomQuestions c6Input "chest pain").prioritized_questions.get i).category
            = "Red Flags Questions" →
        ((parseSymptomQuestions c6Input "chest pain").prioritized_questions.get j).category
            = "Lifestyle Questions" →
        (i : Nat) < (j : Nat))
    ∧ getQuestionPriority "Lifestyle Questions" = 1
    ∧ getQuestionPriority "Red Flags Questions" = 1
    ∧ (parseSymptomQuestions c6Input "chest pain").prioritized_questions.map
        Question.category = ["Lifestyle Questions", "Red Flags Questions"] := by decide

/-- Claim C6 amended: the flattened `prioritized_questions` list is sorted by
(priority ascending, category name ascending); the priority of a category is
that of the first `priority_map` entry one of whose lowercased words occurs
as a substring of the lowercased category name (8 when none does), so any
category name containing "questions" receives priority 1; consequently, with
both a "Red Flags Questions" and a "Lifestyle Questions" category present,
the lifestyle questions precede the red-flag questions by the category-name
tie-break. -/
theorem prioritized_questions_sorted (assoc : List (String × List Question))
    (category : String)
    (hcat : strContains (pyLower category) "questions" = true) :
    (getPrioritizedQuestions assoc).Pairwise qKeyLe
    ∧ getQuestionPriority category = 1
    ∧ (parseSymptomQuestions c6Input "chest pain").prioritized_questions.map
        Question.category = ["Lifestyle Questions", "Red Flags Questions"] := by
  refine ⟨sortQ_pairwise _, ?_, by decide⟩
  rw [getQuestionPriority]
  have hw : pySplitWs (pyLower "Red Flags Questions").toList
      = ["red".toList, "flags".toList, "questions".toList] := by decide
  have hp2 : ((pySplitWs (pyLower "Red Flags Questions").toList).any
      (fun w => isSubstr w (pyLower category).toList)) = true := by
    rw [hw]
    simp only [List.any_cons, List.any_nil, Bool.or_eq_true, Bool.or_eq_false_iff]
    right
    right
    left
    exact hcat
  simp only [priorityMap, List.find?_cons, hp2]

end Consult

namespace Consult

theorem splitSymptoms_ne_nil (s : String) : splitSymptoms s ≠ [] := by
  rw [splitSymptoms]
  by_cases h : (((splitOnChar ',' s.toList).map (fun t => String.mk (pyStripL t))).filter
      (fun s => s != "")).isEmpty = true
  · rw [if_pos h]
    exact List.cons_ne_nil _ _
  · rw [if_neg h]
    simpa [List.isEmpty_iff] using h

theorem splitSymptoms_length_pos (s : String) : 0 < (splitSymptoms s).length :=
  List.length_pos.mpr (splitSymptoms_ne_nil s)

theorem runStages_nil (st : AgentState) (db : DB) (now : String) :
    runStages st db now [] = [] := rfl

theorem runStages_cons (st : AgentState) (db : DB) (now i : String) (rest : List String) :
    runStages st db now (i :: rest)
    = (turnStep st i db now).1.consultation_stage
        :: runStages (turnStep st i db now).1 (turnStep st i db now).2 now rest := rfl

theorem turnStep_greeting (n e : Option String) (sy : List String) (ci qi : Nat) (cc : Bool)
    (sid i : String) (db : DB) (now : String) :
    turnStep ⟨.greeting, n, e, sy, ci, qi, cc, sid⟩ i db now
    = (⟨.collecting_basic_info, n, e, sy, ci, qi, false, sid⟩, db) := rfl

theorem turnStep_name (n e : Option String) (sy : List String) (ci qi : Nat) (cc : Bool)
    (sid i : String) (db : DB) (now : String)
    (hn : truthyStr n = false) (hi : pyStrip i ≠ "") :
    turnStep ⟨.collecting_basic_info, n, e, sy, ci, qi, cc, sid⟩ i db now
    = (⟨.collecting_basic_info, some (pyStrip i), e, sy, ci, qi, false, sid⟩,
       updateConsultation db sid
         { patient_name := some (pyStrip i)
           consultation_stage := some .collecting_basic_info }) := by
  have hb : (pyStrip i != "") = true := by simpa using hi
  simp [turnStep, collectBasicInfo, hn, hb]

theorem turnStep_email (n e : Option String) (sy : List String) (ci qi : Nat) (cc : Bool)
    (sid i : String) (db : DB) (now : String)
    (hn : truthyStr n = true) (he : truthyStr e = false)
    (hi : pyStrip i ≠ "") (hm : matchEmail (pyStrip i) = true) :
    turnStep ⟨.collecting_basic_info, n, e, sy, ci, qi, cc, sid⟩ i db now
    = (⟨.collecting_symptoms, n, some (pyStrip i), sy, ci, qi, false, sid⟩,
       updateConsultation db sid
         { patient_email := some (pyStrip i)
           consultation_stage := some .collecting_symptoms }) := by
  have hb : (pyStrip i != "") = true := by simpa using hi
  simp [turnStep, collectBasicInfo, hn, he, hb, hm]

theorem turnStep_symptoms (n e : Option String) (ci qi : Nat) (cc : Bool)
    (sid i : String) (db : DB) (now : String) (hi : pyStrip i ≠ "") :
    turnStep ⟨.collecting_symptoms, n, e, [], ci, qi, cc, sid⟩ i db now
    = (⟨.asking_followup_questions, n, e, splitSymptoms i, ci, qi, false, sid⟩,
       updateConsultation db sid
         { symptoms_reported := some (splitSymptoms i)
           consultation_stage := some .asking_followup_questions }) := by
  have hb : (pyStrip i != "") = true := by simpa using hi
  simp [turnStep, collectBasicInfo, hb]

theorem turnStep_ask (n e : Option String) (sy : List String) (ci qi : Nat) (cc : Bool)
    (sid i : String) (db : DB) (now : String)
    (hs : sy ≠ []) (hci : ci < sy.length) (hqi : qi < 5) :
    turnStep ⟨.asking_followup_questions, n, e, sy, ci, qi, cc, sid⟩ i db now
    = (⟨.asking_followup_questions, n, e, sy, ci, qi + 1, false, sid⟩,
       updateConsultation
         (storeResponse ⟨.asking_followup_questions, n, e, sy, ci, qi, cc, sid⟩ i db) sid
         { current_question_index := some (qi + 1) }) := by
  have hne : sy.isEmpty = false := by simpa [List.isEmpty_iff] using hs
  have h5 : ¬ (5 ≤ qi) := by omega
  simp [turnStep, askFollowup, hne, h5, hci, standardQuestions, hqi]

theorem turnStep_cap (n e : Option String) (sy : List String) (ci qi : Nat) (cc : Bool)
    (sid i : String) (db : DB) (now : String) (hqi : 5 ≤ qi) :
    (turnStep ⟨.asking_followup_questions, n, e, sy, ci, qi, cc, sid⟩ i db now).1
    = ⟨.completed, n, e, sy, ci, qi, true, sid⟩ := by
  by_cases hs : sy.isEmpty = true
  · simp [turnStep, askFollowup, hs, generateSummary]
  · simp [turnStep, askFollowup, hs, hqi, generateSummary]

/-- Claim C7 amended: a well-behaved run (valid name, valid email, nonempty
symptom input, then six follow-up turns) passes through exactly the stages
GREETING, COLLECTING_BASIC_INFO (twice), COLLECTING_SYMPTOMS,
ASKING_FOLLOWUP_QUESTIONS (six turns) and COMPLETED, in this order with no
backward transition; the SUMMARY stage value never occurs — summary
generation runs inside the turn that moves the stage to COMPLETED. -/
theorem wellbehaved_run_stage_trace (sid now : String) (uid : Option String)
    (g nm em sy a1 a2 a3 a4 a5 a6 : String)
    (hnm : pyStrip nm ≠ "")
    (hem1 : pyStrip em ≠ "") (hem2 : matchEmail (pyStrip em) = true)
    (hsy : pyStrip sy ≠ "") :
    Stage.greeting ::
      runStages (initializeConsultation emptyDB sid uid).1
        (initializeConsultation emptyDB sid uid).2 now
        [g, nm, em, sy, a1, a2, a3, a4, a5, a6]
    = [Stage.greeting, .collecting_basic_info, .collecting_basic_info, .collecting_symptoms,
       .asking_followup_questions, .asking_followup_questions, .asking_followup_questions,
       .asking_followup_questions, .asking_followup_questions, .asking_followup_questions,
       .completed] := by
  have e0 : initializeConsultation emptyDB sid uid
      = (⟨.greeting, none, none, [], 0, 0, false, sid⟩,
         { consultations := [newConsultationRow sid uid], responses := [], summaries := [] }) :=
    rfl
  rw [e0]
  rw [runStages_cons, turnStep_greeting none none [] 0 0 false sid g _ now]
  rw [runStages_cons, turnStep_name none none [] 0 0 false sid nm _ now rfl hnm]
  rw [runStages_cons,
    turnStep_email (some (pyStrip nm)) none [] 0 0 false sid em _ now
      (show truthyStr (some (pyStrip nm)) = true by simp [truthyStr, hnm]) rfl hem1 hem2]
  rw [runStages_cons,
    turnStep_symptoms (some (pyStrip nm)) (some (pyStrip em)) 0 0 false sid sy _ now hsy]
  rw [runStages_cons,
    turnStep_ask (some (pyStrip nm)) (some (pyStrip em)) (splitSymptoms sy) 0 0 false sid
      a1 _ now (splitSymptoms_ne_nil sy) (splitSymptoms_length_pos sy) (by omega)]
  rw [runStages_cons,
    turnStep_ask (some (pyStrip nm)) (some (pyStrip em)) (splitSymptoms sy) 0 (0 + 1) false sid
      a2 _ now (splitSymptoms_ne_nil sy) (splitSymptoms_length_pos sy) (by omega)]
  rw [runStages_cons,
    turnStep_ask (some (pyStrip nm)) (some (pyStrip em)) (splitSymptoms sy) 0 (0 + 1 + 1) false
      sid a3 _ now (splitSymptoms_ne_nil sy) (splitSymptoms_length_pos sy) (by omega)]
  rw [runStages_cons,
    turnStep_ask (some (pyStrip nm)) (some (pyStrip em)) (splitSymptoms sy) 0 (0 + 1 + 1 + 1)
      false sid a4 _ now (splitSymptoms_ne_nil sy) (splitSymptoms_length_pos sy) (by omega)]
  rw [runStages_cons,
    turnStep_ask (some (pyStrip nm)) (some (pyStrip em)) (splitSymptoms sy) 0 (0 + 1 + 1 + 1 + 1)
      false sid a5 _ now (splitSymptoms_ne_nil sy) (splitSymptoms_length_pos sy) (by omega)]
  rw [runStages_cons,
    turnStep_cap (some (pyStrip nm)) (some (pyStrip em)) (splitSymptoms sy) 0
      (0 + 1 + 1 + 1 + 1 + 1) false sid a6 _ now (by omega)]
  rfl

end Consult

namespace Consult

/-- Claim C7 counterexample: in a concrete well-behaved run the stage
sequence is the five-stage sequence with ASKING_FOLLOWUP_QUESTIONS repeated,
and the SUMMARY stage value is never taken — so the run does not pass through
all six enum stages as the claim states. -/
theorem summary_stage_never_taken :
    (Stage.greeting ::
      runStages (initializeConsultation emptyDB "session-7" none).1
        (initializeConsultation emptyDB "session-7" none).2 "July 1, 2025"
        ["hello", "Alice Smith", "alice.smith@example.com",
         "chest pain, shortness of breath", "two days ago", "severe",
         "worse with activity", "no medication", "no other symptoms", "thank you"]
      = [Stage.greeting, .collecting_basic_info, .collecting_basic_info, .collecting_symptoms,
         .asking_followup_questions, .asking_followup_questions, .asking_followup_questions,
         .asking_followup_questions, .asking_followup_questions, .asking_followup_questions,
         .completed])
    ∧ Stage.summary ∉
        Stage.greeting ::
          runStages (initializeConsultation emptyDB "session-7" none).1
            (initializeConsultation emptyDB "session-7" none).2 "July 1, 2025"
            ["hello", "Alice Smith", "alice.smith@example.com",
             "chest pain, shortness of breath", "two days ago", "severe",
             "worse with activity", "no medication", "no other symptoms", "thank you"] := by
  decide

end Consult

namespace Consult

/-- Witness for C6 (amended) at the empty dictionary and the category name
that the claim expected to rank sixth. -/
theorem c6_witness :
    (getPrioritizedQuestions []).Pairwise qKeyLe
    ∧ getQuestionPriority "Lifestyle Questions" = 1
    ∧ (parseSymptomQuestions c6Input "chest pain").prioritized_questions.map
        Question.category = ["Lifestyle Questions", "Red Flags Questions"] :=
  prioritized_questions_sorted [] "Lifestyle Questions" (by decide)

/-- Witness for C7 (amended) at a concrete well-behaved dialogue. -/
theorem c7_witness :
    Stage.greeting ::
      runStages (initializeConsultation emptyDB "session-7w" (some "user-7")).1
        (initializeConsultation emptyDB "session-7w" (some "user-7")).2 "July 2, 2025"
        ["hi", "Bob Jones", "bob.jones@mail.org", "headache", "b1", "b2", "b3", "b4", "b5",
         "b6"]
    = [Stage.greeting, .collecting_basic_info, .collecting_basic_info, .collecting_symptoms,
       .asking_followup_questions, .asking_followup_questions, .asking_followup_questions,
       .asking_followup_questions, .asking_followup_questions, .asking_followup_questions,
       .completed] :=
  wellbehaved_run_stage_trace "session-7w" "July 2, 2025" (some "user-7") "hi" "Bob Jones"
    "bob.jones@mail.org" "headache" "b1" "b2" "b3" "b4" "b5" "b6"
    (by decide) (by decide) (by decide) (by decide)

end Consult

namespace Consult

/-- Witness for C9 at a concrete clinical question. -/
theorem c9_witness :
    makePatientFriendly "Do you have DYSPNEA?" = patientFriendlySpec "Do you have DYSPNEA?"
    ∧ makePatientFriendly (pyLower "Do you have DYSPNEA?")
        = makePatientFriendly "Do you have DYSPNEA?"
    ∧ ∀ c ∈ (makePatientFriendly "Do you have DYSPNEA?").toList.drop 1,
        c.toNat < 65 ∨ 90 < c.toNat :=
  patient_friendly_lowercases_whole_input "Do you have DYSPNEA?"

/-- Witness for C10 at the concrete two-category retrieval block. -/
theorem c10_witness :
    (parseSymptomQuestions c6Input "chest pain").total_questions
      = ((parseSymptomQuestions c6Input "chest pain").questions_by_category.map
           (fun p => p.2.length)).sum
    ∧ (parseSymptomQuestions c6Input "chest pain").total_questions
      = (parseSymptomQuestions c6Input "chest pain").prioritized_questions.length
    ∧ List.Perm (parseSymptomQuestions c6Input "chest pain").prioritized_questions
        (((parseSymptomQuestions c6Input "chest pain").questions_by_category.map
            Prod.snd).flatten)
    ∧ ∀ p ∈ (parseSymptomQuestions c6Input "chest pain").questions_by_category,
        ∀ q ∈ p.2, q.category = p.1 :=
  parse_symptom_questions_invariants c6Input "chest pain"

end Consult
